import Mathlib

/-!
Verification of the Account REST service (routes.py) against its
specification.  The route handlers in `service/routes.py` are embedded as
pure Lean functions over an explicit store state.  The `Account` model
layer (`service/models.py`) is not part of the sources at hand, so its
operations (`find`, `all`, `create`, `update`, `delete`, `deserialize`,
`serialize`) are modelled from the specification's data-model and
lifecycle sections.
-/

/-- Modelled from the spec: the persisted fields of an `Account` record
other than `id` (§3 data model: `name` and `email` required and non-empty,
other flat scalar profile fields optional and defaulted). -/
structure AccountData where
  name : String
  email : String
  address : String
  phone_number : String
  date_joined : String
  deriving Repr, DecidableEq

/-- Modelled from the spec: a persisted `Account` record, a store-assigned
integer `id` plus the scalar fields. -/
structure Account where
  id : Nat
  data : AccountData
  deriving Repr, DecidableEq

/-- A decoded JSON request body: each Account field either present or
absent.  This is the input of `deserialize`. -/
structure Payload where
  name : Option String
  email : Option String
  address : Option String
  phone_number : Option String
  date_joined : Option String
  deriving Repr, DecidableEq

/-- Modelled from the spec: `Account.deserialize` (models.py is absent).
Decoding a body into an Account representation fails (BadRequest) when a
required field is missing or empty — §3: `name` required non-empty,
`email` required non-empty; other profile fields optional, defaulted. -/
def deserialize (p : Payload) : Option AccountData :=
  match p.name, p.email with
  | some n, some e =>
      if n ≠ "" ∧ e ≠ "" then
        some ⟨n, e, p.address.getD "", p.phone_number.getD "", p.date_joined.getD ""⟩
      else none
  | _, _ => none

/-- Modelled from the spec: the durable store — one collection of Account
records keyed by `id`, with ids assigned by the store on creation. -/
structure Store where
  accounts : List Account
  nextId : Nat
  deriving Repr, DecidableEq

/-- Modelled from the spec: `Account.find` — look up the record with the
given `id`, if any. -/
def Account.find (st : Store) (account_id : Nat) : Option Account :=
  st.accounts.find? (fun a => a.id == account_id)

/-- Modelled from the spec: `Account.all` — every persisted record. -/
def Account.all (st : Store) : List Account :=
  st.accounts

/-- An incoming HTTP request, as the handlers observe it: the
`Content-Type` header (absent or its exact string) and the decoded JSON
body. -/
structure Request where
  contentType : Option String
  body : Payload
  deriving Repr, DecidableEq

/-- Response body: empty, one serialized record, or a list of them.
Serialization is modelled as the record itself. -/
inductive RespBody where
  | empty : RespBody
  | single : Account → RespBody
  | many : List Account → RespBody
  deriving Repr, DecidableEq

/-- An HTTP response: status code, body, and the id the `Location` header
points to (the Read endpoint of that id), when present. -/
structure HttpResponse where
  status : Nat
  body : RespBody
  location : Option Nat
  deriving Repr, DecidableEq

/-- `check_content_type` from routes.py: the request's `Content-Type`
header must equal the media type exactly (`request.headers.get` yields
nothing when the header is absent). -/
def check_content_type (contentType : Option String) (media_type : String) : Bool :=
  contentType == some media_type

/-- `create_account` from routes.py: check content type, decode the body,
persist a new record with the store-assigned id, answer 201 with the
serialized record and a Location header for its Read endpoint. -/
def create_account (st : Store) (req : Request) : Store × HttpResponse :=
  if ¬ check_content_type req.contentType "application/json" then
    (st, ⟨415, RespBody.empty, none⟩)
  else
    match deserialize req.body with
    | none => (st, ⟨400, RespBody.empty, none⟩)
    | some d =>
        let account : Account := ⟨st.nextId, d⟩
        (⟨st.accounts ++ [account], st.nextId + 1⟩,
         ⟨201, RespBody.single account, some account.id⟩)

/-- `list_accounts` from routes.py: serialize every persisted record,
answer 200. -/
def list_accounts (st : Store) : Store × HttpResponse :=
  (st, ⟨200, RespBody.many (Account.all st), none⟩)

/-- `get_account` from routes.py: find the record; 404 when absent, else
200 with the serialized record. -/
def get_account (st : Store) (account_id : Nat) : Store × HttpResponse :=
  match Account.find st account_id with
  | none => (st, ⟨404, RespBody.empty, none⟩)
  | some a => (st, ⟨200, RespBody.single a, none⟩)

/-- `update_account` from routes.py: check content type, find the record
(404 when absent), decode the body over it (400 on bad body), persist,
answer 200 with the updated record. -/
def update_account (st : Store) (account_id : Nat) (req : Request) :
    Store × HttpResponse :=
  if ¬ check_content_type req.contentType "application/json" then
    (st, ⟨415, RespBody.empty, none⟩)
  else
    match Account.find st account_id with
    | none => (st, ⟨404, RespBody.empty, none⟩)
    | some a =>
        match deserialize req.body with
        | none => (st, ⟨400, RespBody.empty, none⟩)
        | some d =>
            let a2 : Account := ⟨a.id, d⟩
            (⟨st.accounts.map (fun b => if b.id == account_id then a2 else b),
              st.nextId⟩,
             ⟨200, RespBody.single a2, none⟩)

/-- `delete_account` from routes.py: delete the record when it exists,
answer 204 with an empty body either way. -/
def delete_account (st : Store) (account_id : Nat) : Store × HttpResponse :=
  match Account.find st account_id with
  | some _ =>
      (⟨st.accounts.filter (fun a => a.id != account_id), st.nextId⟩,
       ⟨204, RespBody.empty, none⟩)
  | none => (st, ⟨204, RespBody.empty, none⟩)

/-- Store well-formedness: every persisted id is below the next
store-assigned id, and ids are pairwise distinct. -/
def Store.WF (st : Store) : Prop :=
  (∀ a ∈ st.accounts, a.id < st.nextId) ∧
    st.accounts.Pairwise (fun a b => a.id ≠ b.id)

instance (st : Store) : Decidable st.WF := by
  unfold Store.WF; infer_instance

example : deserialize ⟨some "Jane Doe", some "jane@example.com", none, none, none⟩ =
    some ⟨"Jane Doe", "jane@example.com", "", "", ""⟩ := by decide

example : deserialize ⟨none, some "jane@example.com", none, none, none⟩ = none := by
  decide

lemma find_id_eq (st : Store) (i : Nat) (a : Account)
    (h : Account.find st i = some a) : a.id = i := by
  have h2 := List.find?_some h
  simpa using h2

lemma delete_resp (st : Store) (i : Nat) :
    (delete_account st i).2 = ⟨204, RespBody.empty, none⟩ := by
  unfold delete_account
  cases Account.find st i <;> rfl

lemma create_eq_415 (st : Store) (req : Request)
    (h : req.contentType ≠ some "application/json") :
    create_account st req = (st, ⟨415, RespBody.empty, none⟩) := by
  have hchk : check_content_type req.contentType "application/json" = false := by
    simpa [check_content_type] using h
  unfold create_account
  rw [hchk]
  rfl

lemma create_eq_400 (st : Store) (req : Request)
    (hct : req.contentType = some "application/json")
    (hde : deserialize req.body = none) :
    create_account st req = (st, ⟨400, RespBody.empty, none⟩) := by
  have hchk : check_content_type req.contentType "application/json" = true := by
    simp [check_content_type, hct]
  unfold create_account
  rw [hchk]
  simp [hde]

lemma create_eq_201 (st : Store) (req : Request) (d : AccountData)
    (hct : req.contentType = some "application/json")
    (hde : deserialize req.body = some d) :
    create_account st req =
      (⟨st.accounts ++ [⟨st.nextId, d⟩], st.nextId + 1⟩,
       ⟨201, RespBody.single ⟨st.nextId, d⟩, some st.nextId⟩) := by
  have hchk : check_content_type req.contentType "application/json" = true := by
    simp [check_content_type, hct]
  unfold create_account
  rw [hchk]
  simp [hde]

/-- Claim C2: Delete always answers 204 with an empty body; on a missing
id it performs no store write; and a second Delete on the same id yields
the same success response. -/
theorem delete_account_idempotent (st : Store) (i : Nat) :
    (delete_account st i).2 = ⟨204, RespBody.empty, none⟩ ∧
    (Account.find st i = none → (delete_account st i).1 = st) ∧
    (delete_account (delete_account st i).1 i).2 = ⟨204, RespBody.empty, none⟩ := by
  refine ⟨delete_resp st i, ?_, delete_resp _ i⟩
  intro h
  unfold delete_account
  rw [h]

theorem delete_account_idempotent_witness :
    (delete_account ⟨[], 5⟩ 999999).2 = ⟨204, RespBody.empty, none⟩ ∧
    (Account.find ⟨[], 5⟩ 999999 = none → (delete_account ⟨[], 5⟩ 999999).1 = ⟨[], 5⟩) ∧
    (delete_account (delete_account ⟨[], 5⟩ 999999).1 999999).2 =
      ⟨204, RespBody.empty, none⟩ :=
  delete_account_idempotent ⟨[], 5⟩ 999999

/-- Claim C3: Read answers 200 with the serialized record when the id
exists, 404 when it does not, and never changes the store. -/
theorem get_account_read_spec (st : Store) (i : Nat) :
    (∀ a, Account.find st i = some a →
      get_account st i = (st, ⟨200, RespBody.single a, none⟩)) ∧
    (Account.find st i = none →
      get_account st i = (st, ⟨404, RespBody.empty, none⟩)) ∧
    (get_account st i).1 = st := by
  refine ⟨?_, ?_, ?_⟩
  · intro a h
    unfold get_account
    rw [h]
  · intro h
    unfold get_account
    rw [h]
  · unfold get_account
    cases Account.find st i <;> rfl

theorem get_account_read_spec_witness :
    (∀ a, Account.find ⟨[⟨7, ⟨"Jane", "j@x", "", "", ""⟩⟩], 8⟩ 7 = some a →
      get_account ⟨[⟨7, ⟨"Jane", "j@x", "", "", ""⟩⟩], 8⟩ 7 =
        (⟨[⟨7, ⟨"Jane", "j@x", "", "", ""⟩⟩], 8⟩, ⟨200, RespBody.single a, none⟩)) ∧
    (Account.find ⟨[⟨7, ⟨"Jane", "j@x", "", "", ""⟩⟩], 8⟩ 7 = none →
      get_account ⟨[⟨7, ⟨"Jane", "j@x", "", "", ""⟩⟩], 8⟩ 7 =
        (⟨[⟨7, ⟨"Jane", "j@x", "", "", ""⟩⟩], 8⟩, ⟨404, RespBody.empty, none⟩)) ∧
    (get_account ⟨[⟨7, ⟨"Jane", "j@x", "", "", ""⟩⟩], 8⟩ 7).1 =
      ⟨[⟨7, ⟨"Jane", "j@x", "", "", ""⟩⟩], 8⟩ :=
  get_account_read_spec ⟨[⟨7, ⟨"Jane", "j@x", "", "", ""⟩⟩], 8⟩ 7

/-- Claim C4: a Create whose Content-Type is not exactly
`application/json` fails with 415, persists nothing, and its outcome does
not depend on the body at all. -/
theorem create_account_media_type_gate (st : Store) (req : Request)
    (h : req.contentType ≠ some "application/json") :
    create_account st req = (st, ⟨415, RespBody.empty, none⟩) ∧
    ∀ b : Payload,
      create_account st ⟨req.contentType, b⟩ = (st, ⟨415, RespBody.empty, none⟩) := by
  exact ⟨create_eq_415 st req h, fun b => create_eq_415 st ⟨req.contentType, b⟩ h⟩

theorem create_account_media_type_gate_witness :
    (create_account ⟨[], 0⟩ ⟨some "text/html", ⟨some "Jane", some "j@x", none, none, none⟩⟩ =
      (⟨[], 0⟩, ⟨415, RespBody.empty, none⟩)) ∧
    ∀ b : Payload,
      create_account ⟨[], 0⟩ ⟨some "text/html", b⟩ = (⟨[], 0⟩, ⟨415, RespBody.empty, none⟩) :=
  create_account_media_type_gate ⟨[], 0⟩
    ⟨some "text/html", ⟨some "Jane", some "j@x", none, none, none⟩⟩ (by decide)

/-- Claim C5: a successful Create persists one new record under the
store-assigned id, answers 201 with the full serialized record, and its
Location header references the Read endpoint of the new id. -/
theorem create_account_success_spec (st : Store) (req : Request) (d : AccountData)
    (hct : req.contentType = some "application/json")
    (hde : deserialize req.body = some d) :
    create_account st req =
      (⟨st.accounts ++ [⟨st.nextId, d⟩], st.nextId + 1⟩,
       ⟨201, RespBody.single ⟨st.nextId, d⟩, some st.nextId⟩) :=
  create_eq_201 st req d hct hde

theorem create_account_success_spec_witness :
    create_account ⟨[], 0⟩
      ⟨some "application/json", ⟨some "Jane Doe", some "jane@example.com", none, none, none⟩⟩ =
      (⟨[⟨0, ⟨"Jane Doe", "jane@example.com", "", "", ""⟩⟩], 1⟩,
       ⟨201, RespBody.single ⟨0, ⟨"Jane Doe", "jane@example.com", "", "", ""⟩⟩, some 0⟩) :=
  create_account_success_spec ⟨[], 0⟩
    ⟨some "application/json", ⟨some "Jane Doe", some "jane@example.com", none, none, none⟩⟩
    ⟨"Jane Doe", "jane@example.com", "", "", ""⟩ rfl (by decide)

/-- Claim C9: Update checks the Content-Type header before existence of
the id: a non-JSON PUT answers 415 — never 404 — even on a store holding
no record with that id. -/
theorem update_account_media_type_before_find (st : Store) (i : Nat) (req : Request)
    (h : req.contentType ≠ some "application/json") :
    update_account st i req = (st, ⟨415, RespBody.empty, none⟩) ∧
    (update_account st i req).2.status ≠ 404 := by
  have hchk : check_content_type req.contentType "application/json" = false := by
    simpa [check_content_type] using h
  have heq : update_account st i req = (st, ⟨415, RespBody.empty, none⟩) := by
    unfold update_account
    rw [hchk]
    rfl
  exact ⟨heq, by rw [heq]; simp⟩

theorem update_account_media_type_before_find_witness :
    Account.find ⟨[], 0⟩ 999999 = none ∧
    (update_account ⟨[], 0⟩ 999999
        ⟨some "text/html", ⟨some "Jane", some "j@x", none, none, none⟩⟩ =
      (⟨[], 0⟩, ⟨415, RespBody.empty, none⟩)) ∧
    (update_account ⟨[], 0⟩ 999999
        ⟨some "text/html", ⟨some "Jane", some "j@x", none, none, none⟩⟩).2.status ≠ 404 :=
  ⟨by decide,
   update_account_media_type_before_find ⟨[], 0⟩ 999999
     ⟨some "text/html", ⟨some "Jane", some "j@x", none, none, none⟩⟩ (by decide)⟩

/-- Claim C10: the content-type check is exact string equality, so
requests that do declare JSON — `application/json; charset=utf-8`, or a
missing Content-Type header — are rejected with 415 by Create and
Update. -/
theorem check_content_type_exact_equality :
    check_content_type (some "application/json; charset=utf-8") "application/json" = false ∧
    check_content_type none "application/json" = false ∧
    (create_account ⟨[], 0⟩
      ⟨some "application/json; charset=utf-8",
        ⟨some "Jane", some "j@x", none, none, none⟩⟩).2.status = 415 ∧
    (create_account ⟨[], 0⟩
      ⟨none, ⟨some "Jane", some "j@x", none, none, none⟩⟩).2.status = 415 ∧
    (update_account ⟨[⟨3, ⟨"Old", "o@x", "", "", ""⟩⟩], 4⟩ 3
      ⟨some "application/json; charset=utf-8",
        ⟨some "Jane", some "j@x", none, none, none⟩⟩).2.status = 415 := by
  refine ⟨rfl, rfl, ?_, ?_, ?_⟩ <;> decide

lemma find?_append_fresh (l : List Account) (x : Account) (i : Nat)
    (h : ∀ a ∈ l, a.id ≠ i) (hx : x.id = i) :
    (l ++ [x]).find? (fun a => a.id == i) = some x := by
  induction l with
  | nil => simp [List.find?, hx]
  | cons hd tl ih =>
      have hhd : (hd.id == i) = false := by
        simpa using h hd (by simp)
      have htl : ∀ a ∈ tl, a.id ≠ i := fun a ha => h a (by simp [ha])
      simpa [List.find?, hhd] using ih htl

/-- Claim C1: Create followed by Read on the returned id yields a record
with field values identical to the created record, for every valid
payload with a non-empty name. -/
theorem create_then_read_roundtrip (st : Store) (req : Request) (n : String)
    (d : AccountData) (hWF : st.WF)
    (hct : req.contentType = some "application/json")
    (hn : req.body.name = some n) (hne : n ≠ "")
    (hde : deserialize req.body = some d) :
    (create_account st req).2.status = 201 ∧
    (create_account st req).2.body = RespBody.single ⟨st.nextId, d⟩ ∧
    (create_account st req).2.location = some st.nextId ∧
    get_account (create_account st req).1 st.nextId =
      ((create_account st req).1, ⟨200, RespBody.single ⟨st.nextId, d⟩, none⟩) := by
  have hcr := create_eq_201 st req d hct hde
  rw [hcr]
  refine ⟨rfl, rfl, rfl, ?_⟩
  have hfresh : ∀ a ∈ st.accounts, a.id ≠ st.nextId := by
    intro a ha
    exact Nat.ne_of_lt (hWF.1 a ha)
  have hfind :
      Account.find ⟨st.accounts ++ [⟨st.nextId, d⟩], st.nextId + 1⟩ st.nextId =
        some ⟨st.nextId, d⟩ :=
    find?_append_fresh st.accounts ⟨st.nextId, d⟩ st.nextId hfresh rfl
  unfold get_account
  rw [hfind]

theorem create_then_read_roundtrip_witness :
    (create_account ⟨[], 0⟩
      ⟨some "application/json",
        ⟨some "Jane Doe", some "jane@example.com", none, none, none⟩⟩).2.status = 201 ∧
    (create_account ⟨[], 0⟩
      ⟨some "application/json",
        ⟨some "Jane Doe", some "jane@example.com", none, none, none⟩⟩).2.body =
      RespBody.single ⟨0, ⟨"Jane Doe", "jane@example.com", "", "", ""⟩⟩ ∧
    (create_account ⟨[], 0⟩
      ⟨some "application/json",
        ⟨some "Jane Doe", some "jane@example.com", none, none, none⟩⟩).2.location = some 0 ∧
    get_account (create_account ⟨[], 0⟩
      ⟨some "application/json",
        ⟨some "Jane Doe", some "jane@example.com", none, none, none⟩⟩).1 0 =
      ((create_account ⟨[], 0⟩
        ⟨some "application/json",
          ⟨some "Jane Doe", some "jane@example.com", none, none, none⟩⟩).1,
       ⟨200, RespBody.single ⟨0, ⟨"Jane Doe", "jane@example.com", "", "", ""⟩⟩, none⟩) :=
  create_then_read_roundtrip ⟨[], 0⟩
    ⟨some "application/json", ⟨some "Jane Doe", some "jane@example.com", none, none, none⟩⟩
    "Jane Doe" ⟨"Jane Doe", "jane@example.com", "", "", ""⟩
    (by decide) rfl rfl (by decide) (by decide)

lemma find?_map_pred (f : Account → Account) (p : Account → Bool)
    (hp : ∀ b, p (f b) = p b) (l : List Account) :
    (l.map f).find? p = (l.find? p).map f := by
  induction l with
  | nil => rfl
  | cons hd tl ih =>
      by_cases h : p hd = true
      · simp [List.find?, hp, h]
      · simp only [Bool.not_eq_true] at h
        simp [List.find?, hp, h, ih]

/-- Claim C6: Update on a missing id answers 404 and writes nothing; on
an existing id with a valid body it overwrites the record's fields
wholesale, persists the result, leaves every other id untouched, and
answers 200 with the updated serialized record. -/
theorem update_account_spec (st : Store) (i : Nat) (req : Request)
    (hct : req.contentType = some "application/json") :
    (Account.find st i = none →
      update_account st i req = (st, ⟨404, RespBody.empty, none⟩)) ∧
    (∀ a d, Account.find st i = some a → deserialize req.body = some d →
      (update_account st i req).2 = ⟨200, RespBody.single ⟨i, d⟩, none⟩ ∧
      Account.find (update_account st i req).1 i = some ⟨i, d⟩ ∧
      ∀ j, j ≠ i →
        Account.find (update_account st i req).1 j = Account.find st j) := by
  have hchk : check_content_type req.contentType "application/json" = true := by
    simp [check_content_type, hct]
  constructor
  · intro h
    unfold update_account
    rw [hchk, h]
    rfl
  · intro a d hfind hde
    have hai : a.id = i := find_id_eq st i a hfind
    have hupd : update_account st i req =
        (⟨st.accounts.map (fun b => if b.id == i then ⟨i, d⟩ else b), st.nextId⟩,
         ⟨200, RespBody.single ⟨i, d⟩, none⟩) := by
      unfold update_account
      rw [hchk]
      simp [hfind, hde, hai]
    rw [hupd]
    refine ⟨rfl, ?_, ?_⟩
    · have hp : ∀ b : Account,
          (fun x : Account => x.id == i) (if b.id == i then (⟨i, d⟩ : Account) else b) =
            (fun x : Account => x.id == i) b := by
        intro b
        by_cases hb : (b.id == i) = true <;> simp [hb]
      have hmap0 := find?_map_pred (fun b => if b.id == i then ⟨i, d⟩ else b)
        (fun x => x.id == i) hp st.accounts
      unfold Account.find at hfind ⊢
      simp only [hmap0, hfind]
      simp [hai]
    · intro j hj
      have hp : ∀ b : Account,
          (fun x : Account => x.id == j) (if b.id == i then (⟨i, d⟩ : Account) else b) =
            (fun x : Account => x.id == j) b := by
        intro b
        by_cases hb : (b.id == i) = true
        · have hbi : b.id = i := by simpa using hb
          simp [hb, hbi, Ne.symm hj]
        · simp [hb]
      have hmap := find?_map_pred (fun b => if b.id == i then ⟨i, d⟩ else b)
        (fun x => x.id == j) hp st.accounts
      unfold Account.find
      simp only [hmap]
      cases hfj : st.accounts.find? (fun x => x.id == j) with
      | none => rfl
      | some b =>
          have hbj : b.id = j := by simpa using List.find?_some hfj
          have hbne : (b.id == i) = false := by
            simp [hbj, hj]
          simp [hbj, hj]

theorem update_account_spec_witness :
    (Account.find ⟨[⟨3, ⟨"Old", "o@x", "", "", ""⟩⟩], 4⟩ 3 = none →
      update_account ⟨[⟨3, ⟨"Old", "o@x", "", "", ""⟩⟩], 4⟩ 3
        ⟨some "application/json", ⟨some "New", some "n@x", none, none, none⟩⟩ =
        (⟨[⟨3, ⟨"Old", "o@x", "", "", ""⟩⟩], 4⟩, ⟨404, RespBody.empty, none⟩)) ∧
    (∀ a d, Account.find ⟨[⟨3, ⟨"Old", "o@x", "", "", ""⟩⟩], 4⟩ 3 = some a →
      deserialize (⟨some "New", some "n@x", none, none, none⟩ : Payload) = some d →
      (update_account ⟨[⟨3, ⟨"Old", "o@x", "", "", ""⟩⟩], 4⟩ 3
        ⟨some "application/json", ⟨some "New", some "n@x", none, none, none⟩⟩).2 =
        ⟨200, RespBody.single ⟨3, d⟩, none⟩ ∧
      Account.find (update_account ⟨[⟨3, ⟨"Old", "o@x", "", "", ""⟩⟩], 4⟩ 3
        ⟨some "application/json", ⟨some "New", some "n@x", none, none, none⟩⟩).1 3 =
        some ⟨3, d⟩ ∧
      ∀ j, j ≠ 3 →
        Account.find (update_account ⟨[⟨3, ⟨"Old", "o@x", "", "", ""⟩⟩], 4⟩ 3
          ⟨some "application/json", ⟨some "New", some "n@x", none, none, none⟩⟩).1 j =
          Account.find ⟨[⟨3, ⟨"Old", "o@x", "", "", ""⟩⟩], 4⟩ j) :=
  update_account_spec ⟨[⟨3, ⟨"Old", "o@x", "", "", ""⟩⟩], 4⟩ 3
    ⟨some "application/json", ⟨some "New", some "n@x", none, none, none⟩⟩ rfl

/-- Claim C7: a JSON Create or Update whose body is missing the required
`name` field fails with 400 and leaves the store unchanged (Create
persists nothing; for Update the record found under the id stays as it
was). -/
theorem missing_name_bad_request (st : Store) (req : Request)
    (hct : req.contentType = some "application/json")
    (hname : req.body.name = none) :
    create_account st req = (st, ⟨400, RespBody.empty, none⟩) ∧
    ∀ i a, Account.find st i = some a →
      update_account st i req = (st, ⟨400, RespBody.empty, none⟩) := by
  have hchk : check_content_type req.contentType "application/json" = true := by
    simp [check_content_type, hct]
  have hde0 : deserialize req.body = none := by
    unfold deserialize
    rw [hname]
  constructor
  · unfold create_account
    rw [hchk]
    simp only [if_pos rfl, hde0]
    rfl
  · intro i a hfind
    unfold update_account
    rw [hchk]
    simp only [if_pos rfl, hfind, hde0]
    rfl

theorem missing_name_bad_request_witness :
    (create_account ⟨[⟨3, ⟨"Old", "o@x", "", "", ""⟩⟩], 4⟩
      ⟨some "application/json", ⟨none, some "n@x", none, none, none⟩⟩ =
      (⟨[⟨3, ⟨"Old", "o@x", "", "", ""⟩⟩], 4⟩, ⟨400, RespBody.empty, none⟩)) ∧
    ∀ i a, Account.find ⟨[⟨3, ⟨"Old", "o@x", "", "", ""⟩⟩], 4⟩ i = some a →
      update_account ⟨[⟨3, ⟨"Old", "o@x", "", "", ""⟩⟩], 4⟩ i
        ⟨some "application/json", ⟨none, some "n@x", none, none, none⟩⟩ =
        (⟨[⟨3, ⟨"Old", "o@x", "", "", ""⟩⟩], 4⟩, ⟨400, RespBody.empty, none⟩) :=
  missing_name_bad_request ⟨[⟨3, ⟨"Old", "o@x", "", "", ""⟩⟩], 4⟩
    ⟨some "application/json", ⟨none, some "n@x", none, none, none⟩⟩ rfl rfl

/-- A Create-or-Delete operation, for the List length property. -/
inductive Op where
  | createOp : Request → Op
  | deleteOp : Nat → Op
  deriving Repr

/-- Run a sequence of Create/Delete operations through the handlers,
counting the records created (201 responses) and the records actually
removed (Deletes whose id existed in the store at that moment). -/
def runCount : Store → List Op → Store × Nat × Nat
  | st, [] => (st, 0, 0)
  | st, Op.createOp req :: ops =>
      let p := create_account st req
      let r := runCount p.1 ops
      (r.1, (if p.2.status = 201 then 1 else 0) + r.2.1, r.2.2)
  | st, Op.deleteOp i :: ops =>
      let removed := if (Account.find st i).isSome then 1 else 0
      let r := runCount (delete_account st i).1 ops
      (r.1, r.2.1, removed + r.2.2)

lemma create_account_length (st : Store) (req : Request) :
    (create_account st req).1.accounts.length =
      st.accounts.length + (if (create_account st req).2.status = 201 then 1 else 0) := by
  by_cases hct : req.contentType = some "application/json"
  · cases hde : deserialize req.body with
    | none => rw [create_eq_400 st req hct hde]; simp
    | some d => rw [create_eq_201 st req d hct hde]; simp
  · rw [create_eq_415 st req hct]; simp

lemma create_account_WF (st : Store) (req : Request) (h : st.WF) :
    (create_account st req).1.WF := by
  by_cases hct : req.contentType = some "application/json"
  · cases hde : deserialize req.body with
    | none => rw [create_eq_400 st req hct hde]; exact h
    | some d =>
        rw [create_eq_201 st req d hct hde]
        constructor
        · intro a ha
          rcases List.mem_append.mp ha with hin | hx
          · exact Nat.lt_succ_of_lt (h.1 a hin)
          · have hxe : a = ⟨st.nextId, d⟩ := by simpa using hx
            rw [hxe]
            exact Nat.lt_succ_self _
        · rw [List.pairwise_append]
          refine ⟨h.2, by simp, ?_⟩
          intro a hin b hb
          have hbd : b = ⟨st.nextId, d⟩ := by simpa using hb
          rw [hbd]
          exact Nat.ne_of_lt (h.1 a hin)
  · rw [create_eq_415 st req hct]; exact h

lemma filter_ne_of_not_mem (l : List Account) (i : Nat)
    (h : ∀ a ∈ l, (a.id == i) = false) :
    l.filter (fun a => a.id != i) = l := by
  induction l with
  | nil => rfl
  | cons hd tl ih =>
      have hhd := h hd (by simp)
      have htl : ∀ a ∈ tl, (a.id == i) = false := fun a ha => h a (by simp [ha])
      have hcond : (hd.id != i) = true := by simp [bne, hhd]
      rw [List.filter_cons, if_pos hcond, ih htl]

lemma filter_length_of_found (l : List Account) (i : Nat) (a : Account)
    (hpw : l.Pairwise (fun a b => a.id ≠ b.id))
    (h : l.find? (fun x => x.id == i) = some a) :
    (l.filter (fun x => x.id != i)).length + 1 = l.length := by
  induction l with
  | nil => cases h
  | cons hd tl ih =>
      rcases List.pairwise_cons.mp hpw with ⟨hhd, htl⟩
      by_cases hh : (hd.id == i) = true
      · have hdi : hd.id = i := by simpa using hh
        have hrest : ∀ b ∈ tl, (b.id == i) = false := by
          intro b hb
          have hne : hd.id ≠ b.id := hhd b hb
          rw [hdi] at hne
          simp [Ne.symm hne]
        have hkeep := filter_ne_of_not_mem tl i hrest
        have hcond : ¬ ((hd.id != i) = true) := by simp [bne, hh]
        rw [List.filter_cons, if_neg hcond, hkeep]
        rfl
      · have hfind2 : tl.find? (fun x => x.id == i) = some a := by
          rw [List.find?] at h
          simpa [hh] using h
        have hrec := ih htl hfind2
        have hcond : (hd.id != i) = true := by simp [bne, hh]
        rw [List.filter_cons, if_pos hcond]
        simp only [List.length_cons]
        omega

lemma delete_account_length (st : Store) (i : Nat) (h : st.WF) :
    (delete_account st i).1.accounts.length +
      (if (Account.find st i).isSome then 1 else 0) = st.accounts.length := by
  unfold delete_account
  cases hfind : Account.find st i with
  | none => simp [hfind]
  | some a =>
      simp only [hfind, Option.isSome_some, if_pos]
      exact filter_length_of_found st.accounts i a h.2 hfind

lemma delete_account_WF (st : Store) (i : Nat) (h : st.WF) :
    (delete_account st i).1.WF := by
  unfold delete_account
  cases hfind : Account.find st i with
  | none => simpa using h
  | some a =>
      constructor
      · intro b hb
        exact h.1 b (List.mem_of_mem_filter hb)
      · exact List.Pairwise.sublist (List.filter_sublist _) h.2

lemma runCount_length (ops : List Op) : ∀ st : Store, st.WF →
    (runCount st ops).1.accounts.length + (runCount st ops).2.2 =
      st.accounts.length + (runCount st ops).2.1 ∧ (runCount st ops).1.WF := by
  induction ops with
  | nil =>
      intro st h
      exact ⟨rfl, h⟩
  | cons op ops ih =>
      intro st h
      cases op with
      | createOp req =>
          have h1 := create_account_length st req
          have h2 := ih (create_account st req).1 (create_account_WF st req h)
          refine ⟨?_, h2.2⟩
          have h21 := h2.1
          simp only [runCount]
          omega
      | deleteOp i =>
          have h1 := delete_account_length st i h
          have h2 := ih (delete_account st i).1 (delete_account_WF st i h)
          refine ⟨?_, h2.2⟩
          have h21 := h2.1
          simp only [runCount]
          omega

/-- Claim C8: List always answers 200 with every persisted record — an
empty sequence when none exist — and after any sequence of Create/Delete
operations from a well-formed store the listed length satisfies
final + actually-deleted = initial + created; from an empty store the
length is exactly created minus deleted. -/
theorem list_accounts_length_spec (st : Store) (ops : List Op) (hWF : st.WF) :
    list_accounts st = (st, ⟨200, RespBody.many st.accounts, none⟩) ∧
    (st.accounts = [] → (list_accounts st).2.body = RespBody.many []) ∧
    ((runCount st ops).1.accounts.length + (runCount st ops).2.2 =
      st.accounts.length + (runCount st ops).2.1) ∧
    (st.accounts = [] →
      (list_accounts (runCount st ops).1).2.body =
        RespBody.many (runCount st ops).1.accounts ∧
      (runCount st ops).1.accounts.length =
        (runCount st ops).2.1 - (runCount st ops).2.2) := by
  have hrun := (runCount_length ops st hWF).1
  refine ⟨rfl, ?_, hrun, ?_⟩
  · intro he
    simp [list_accounts, Account.all, he]
  · intro he
    have hlen : st.accounts.length = 0 := by rw [he]; rfl
    exact ⟨rfl, by omega⟩

theorem list_accounts_length_spec_witness :
    list_accounts ⟨[], 0⟩ = (⟨[], 0⟩, ⟨200, RespBody.many [], none⟩) ∧
    (([] : List Account) = [] → (list_accounts ⟨[], 0⟩).2.body = RespBody.many []) ∧
    ((runCount ⟨[], 0⟩
        [Op.createOp ⟨some "application/json",
           ⟨some "Jane", some "j@x", none, none, none⟩⟩,
         Op.createOp ⟨some "application/json",
           ⟨none, some "n@x", none, none, none⟩⟩,
         Op.createOp ⟨some "application/json",
           ⟨some "Bob", some "b@x", none, none, none⟩⟩,
         Op.deleteOp 0,
         Op.deleteOp 999999]).1.accounts.length +
      (runCount ⟨[], 0⟩
        [Op.createOp ⟨some "application/json",
           ⟨some "Jane", some "j@x", none, none, none⟩⟩,
         Op.createOp ⟨some "application/json",
           ⟨none, some "n@x", none, none, none⟩⟩,
         Op.createOp ⟨some "application/json",
           ⟨some "Bob", some "b@x", none, none, none⟩⟩,
         Op.deleteOp 0,
         Op.deleteOp 999999]).2.2 =
      ([] : List Account).length +
      (runCount ⟨[], 0⟩
        [Op.createOp ⟨some "application/json",
           ⟨some "Jane", some "j@x", none, none, none⟩⟩,
         Op.createOp ⟨some "application/json",
           ⟨none, some "n@x", none, none, none⟩⟩,
         Op.createOp ⟨some "application/json",
           ⟨some "Bob", some "b@x", none, none, none⟩⟩,
         Op.deleteOp 0,
         Op.deleteOp 999999]).2.1) ∧
    (([] : List Account) = [] →
      (list_accounts (runCount ⟨[], 0⟩
        [Op.createOp ⟨some "application/json",
           ⟨some "Jane", some "j@x", none, none, none⟩⟩,
         Op.createOp ⟨some "application/json",
           ⟨none, some "n@x", none, none, none⟩⟩,
         Op.createOp ⟨some "application/json",
           ⟨some "Bob", some "b@x", none, none, none⟩⟩,
         Op.deleteOp 0,
         Op.deleteOp 999999]).1).2.body =
        RespBody.many (runCount ⟨[], 0⟩
        [Op.createOp ⟨some "application/json",
           ⟨some "Jane", some "j@x", none, none, none⟩⟩,
         Op.createOp ⟨some "application/json",
           ⟨none, some "n@x", none, none, none⟩⟩,
         Op.createOp ⟨some "application/json",
           ⟨some "Bob", some "b@x", none, none, none⟩⟩,
         Op.deleteOp 0,
         Op.deleteOp 999999]).1.accounts ∧
      (runCount ⟨[], 0⟩
        [Op.createOp ⟨some "application/json",
           ⟨some "Jane", some "j@x", none, none, none⟩⟩,
         Op.createOp ⟨some "application/json",
           ⟨none, some "n@x", none, none, none⟩⟩,
         Op.createOp ⟨some "application/json",
           ⟨some "Bob", some "b@x", none, none, none⟩⟩,
         Op.deleteOp 0,
         Op.deleteOp 999999]).1.accounts.length =
        (runCount ⟨[], 0⟩
        [Op.createOp ⟨some "application/json",
           ⟨some "Jane", some "j@x", none, none, none⟩⟩,
         Op.createOp ⟨some "application/json",
           ⟨none, some "n@x", none, none, none⟩⟩,
         Op.createOp ⟨some "application/json",
           ⟨some "Bob", some "b@x", none, none, none⟩⟩,
         Op.deleteOp 0,
         Op.deleteOp 999999]).2.1 -
        (runCount ⟨[], 0⟩
        [Op.createOp ⟨some "application/json",
           ⟨some "Jane", some "j@x", none, none, none⟩⟩,
         Op.createOp ⟨some "application/json",
           ⟨none, some "n@x", none, none, none⟩⟩,
         Op.createOp ⟨some "application/json",
           ⟨some "Bob", some "b@x", none, none, none⟩⟩,
         Op.deleteOp 0,
         Op.deleteOp 999999]).2.2) :=
  list_accounts_length_spec ⟨[], 0⟩
    [Op.createOp ⟨some "application/json",
       ⟨some "Jane", some "j@x", none, none, none⟩⟩,
     Op.createOp ⟨some "application/json",
       ⟨none, some "n@x", none, none, none⟩⟩,
     Op.createOp ⟨some "application/json",
       ⟨some "Bob", some "b@x", none, none, none⟩⟩,
     Op.deleteOp 0,
     Op.deleteOp 999999] (by decide)
